import Mathlib

/-!
Shallow embedding of the `gamepad` library (src/gamepad/pad.js,
src/gamepad/eventtype.js, src/gamepad/gamepadapi.js).

JS numbers are modelled by exact rationals (ℚ); the only places where
non-finite IEEE values can arise in this code are the quantization
pipeline `Math.round(axisValue / joystickThreshold) * joystickThreshold`
(division by zero) and the `||`-defaulting in the GamepadEvent
constructor, so those are modelled with an explicit value type `JsVal`
carrying Infinity, -Infinity and NaN, with JS truthiness (`0` and `NaN` are
falsy).  Object identity of raw browser Gamepad objects is modelled by a
numeric `id` field: two raw devices are the same reference exactly when
they are equal as values.
-/

namespace gamepad

/-- JS number values as they can appear in this library: a finite value
(modelled exactly by a rational), the two infinities, or NaN. -/
inductive JsVal : Type where
  | num (q : ℚ)
  | inf
  | ninf
  | nan
deriving DecidableEq, Repr

/-- JS division `a / b` on finite operands: division by zero yields
±Infinity (NaN for 0/0). -/
def jsDiv (a b : ℚ) : JsVal :=
  if b = 0 then
    if 0 < a then .inf else if a < 0 then .ninf else .nan
  else .num (a / b)

/-- JS `Math.round` on a finite value: round half toward +∞,
i.e. ⌊x + 1/2⌋. -/
def jsRound (q : ℚ) : ℤ := ⌊q + 1 / 2⌋

/-- JS `Math.round` lifted to `JsVal`: `Math.round` is the identity on
±Infinity and NaN. -/
def jsRoundVal : JsVal → JsVal
  | .num q => .num (jsRound q)
  | .inf => .inf
  | .ninf => .ninf
  | .nan => .nan

/-- JS multiplication of a possibly non-finite value by a finite value:
`Infinity * 0` is NaN. -/
def jsMulVal (v : JsVal) (t : ℚ) : JsVal :=
  match v with
  | .num q => .num (q * t)
  | .inf => if 0 < t then .inf else if t < 0 then .ninf else .nan
  | .ninf => if 0 < t then .ninf else if t < 0 then .inf else .nan
  | .nan => .nan

/-- JS truthiness of a number: `0` and `NaN` are falsy, everything else
(including ±Infinity) is truthy. -/
def jsTruthy : JsVal → Bool
  | .num q => q != 0
  | .inf => true
  | .ninf => true
  | .nan => false

/-- A raw browser Gamepad object (the external collaborator's per-device
state).  `id` stands for the object's reference identity. -/
structure RawPad : Type where
  id : ℕ
  buttons : List ℚ
  axes : List ℚ
deriving DecidableEq, Repr

/-- The raw button/axis data read from a raw device during one `poll()`
(`gamepad.Gamepad.RawData` in pad.js). -/
structure RawData : Type where
  axes : List ℚ
  buttons : List ℚ
deriving DecidableEq, Repr

/-- The event types of eventtype.js. -/
inductive EventType : Type where
  | CONNECTED
  | DISCONNECTED
  | BUTTON_DOWN
  | BUTTON_UP
  | JOYSTICK_MOVED
deriving DecidableEq, Repr

/-- A `gamepad.Gamepad` device wrapper: thresholds plus the snapshots of
button/axis values recorded at the last fired event of each category.
`padId` is the identity of the wrapped raw browser object. -/
structure Gamepad : Type where
  padId : ℕ
  buttonThreshold : ℚ
  joystickThreshold : ℚ
  lastButtonSnapshot : List ℚ
  lastAxisSnapshot : List ℚ
deriving DecidableEq, Repr

/-- The `gamepad.Gamepad` constructor: thresholds default to 0.5 and 0.1,
snapshots are initialised from the raw device's current values. -/
def mkGamepad (raw : RawPad) : Gamepad :=
  { padId := raw.id
    buttonThreshold := 1 / 2
    joystickThreshold := 1 / 10
    lastButtonSnapshot := raw.buttons
    lastAxisSnapshot := raw.axes }

/-- A `gamepad.GamepadEvent`.  The `gamepad` field records the wrapper
the event was constructed with (the `this`/wrapper reference). -/
structure GamepadEvent : Type where
  type : EventType
  gamepad : Gamepad
  button : ℤ
  axis : ℤ
  value : JsVal
  timestamp : ℚ
deriving DecidableEq, Repr

/-- The `gamepad.GamepadEvent` constructor.  Each optional field is
defaulted with JS `||`, so a falsy argument (absent, `0`, or `NaN`) is
replaced by the default: `-1` for button, axis and timestamp, `0` for
value. -/
def mkGamepadEvent (type : EventType) (gp : Gamepad)
    (optButton optAxis : Option ℤ) (optValue : Option JsVal)
    (optTimestamp : Option ℚ) : GamepadEvent :=
  { type := type
    gamepad := gp
    button := match optButton with
      | some b => if b = 0 then -1 else b
      | none => -1
    axis := match optAxis with
      | some a => if a = 0 then -1 else a
      | none => -1
    value := match optValue with
      | some v => if jsTruthy v then v else .num 0
      | none => .num 0
    timestamp := match optTimestamp with
      | some t => if t = 0 then -1 else t
      | none => -1 }

/-- Embedding of `gamepad.Gamepad.prototype.setThresholds`.  The JS method throws
(string message) before any assignment when a threshold is out of range;
the result pairs the thrown message (if any) with the wrapper state after
the call. -/
def Gamepad.setThresholds (gp : Gamepad)
    (buttonThreshold joystickThreshold : ℚ) : Option String × Gamepad :=
  if buttonThreshold < 0 ∨ 1 < buttonThreshold then
    (some "Invalid button threshold. Value must be in the range [0.0, 1.0].", gp)
  else if joystickThreshold < 0 ∨ 1 < joystickThreshold then
    (some "Invalid joystick threshold. Value must be in the range [0.0, 1.0].", gp)
  else
    (none, { gp with buttonThreshold := buttonThreshold
                     joystickThreshold := joystickThreshold })

/-- The events the axis loop body of `poll()` emits at index `i` with new
value `v`: if `|v - lastAxisSnapshot[i]|` strictly exceeds the joystick
threshold, one JOYSTICK_MOVED with the quantized value.  An index beyond
the stored snapshot reads `undefined`, whose comparisons are all false. -/
def axisContrib (jt : ℚ) (gp : Gamepad) (snap : List ℚ) (i : ℕ) (v : ℚ) :
    List GamepadEvent :=
  match snap[i]? with
  | none => []
  | some o =>
    if jt < |v - o| then
      [mkGamepadEvent .JOYSTICK_MOVED gp none (some i)
        (some (jsMulVal (jsRoundVal (jsDiv v jt)) jt)) none]
    else []

/-- The events the button loop body of `poll()` emits at index `i` with
new value `v`: BUTTON_DOWN on an upward crossing (new ≥ threshold,
old < threshold), BUTTON_UP on a downward crossing (two independent
`if`s, as in the source). -/
def buttonContrib (bt : ℚ) (gp : Gamepad) (snap : List ℚ) (i : ℕ) (v : ℚ) :
    List GamepadEvent :=
  match snap[i]? with
  | none => []
  | some o =>
    (if bt ≤ v ∧ o < bt then
      [mkGamepadEvent .BUTTON_DOWN gp (some i) none (some (.num 1)) none]
    else []) ++
    (if v < bt ∧ bt ≤ o then
      [mkGamepadEvent .BUTTON_UP gp (some i) none (some (.num 0)) none]
    else [])

/-- The `goog.array.forEach` loop over the new axis values, carrying the running
index, collecting each index's contribution in order. -/
def axisScan (jt : ℚ) (gp : Gamepad) (snap : List ℚ) :
    ℕ → List ℚ → List GamepadEvent
  | _, [] => []
  | i, v :: rest => axisContrib jt gp snap i v ++ axisScan jt gp snap (i + 1) rest

/-- The `goog.array.forEach` loop over the new button values, carrying the running
index. -/
def buttonScan (bt : ℚ) (gp : Gamepad) (snap : List ℚ) :
    ℕ → List ℚ → List GamepadEvent
  | _, [] => []
  | i, v :: rest => buttonContrib bt gp snap i v ++ buttonScan bt gp snap (i + 1) rest

/-- Embedding of `gamepad.Gamepad.prototype.poll`, as a function of the wrapper state
and the raw values currently read from the browser object: returns the
events dispatched (in dispatch order: all axis events, then all button
events) and the wrapper state after the call.  Each category's stored
snapshot is replaced by the new values exactly when at least one event of
that category fired. -/
def Gamepad.poll (gp : Gamepad) (raw : RawData) :
    List GamepadEvent × Gamepad :=
  let axEvs := axisScan gp.joystickThreshold gp gp.lastAxisSnapshot 0 raw.axes
  let gp1 := if axEvs = [] then gp else { gp with lastAxisSnapshot := raw.axes }
  let btEvs := buttonScan gp1.buttonThreshold gp1 gp1.lastButtonSnapshot 0 raw.buttons
  let gp2 := if btEvs = [] then gp1 else { gp1 with lastButtonSnapshot := raw.buttons }
  (axEvs ++ btEvs, gp2)

/-- The `gamepad.GamepadManager` state: the last-known raw device list,
the tracked wrappers (indexed by slot, `none` for an empty slot), and the
default thresholds applied to newly connected devices.  The polling
timer is external scheduling and is not part of the data model. -/
structure GamepadManager : Type where
  knownRawGamepads : List (Option RawPad)
  gamepads : List (Option Gamepad)
  defaultButtonThreshold : ℚ
  defaultJoystickThreshold : ℚ
deriving DecidableEq, Repr

/-- The `gamepad.GamepadManager` constructor. -/
def mkGamepadManager : GamepadManager :=
  { knownRawGamepads := []
    gamepads := []
    defaultButtonThreshold := 1 / 2
    defaultJoystickThreshold := 1 / 10 }

/-- Embedding of `gamepad.GamepadManager.prototype.setThresholds`: validate, then set
the defaults and propagate to every tracked wrapper (`gamepad &&
gamepad.setThresholds(...)` skips empty slots).  The thrown message (if
any) is paired with the manager state after the call; both throws happen
before any assignment. -/
def GamepadManager.setThresholds (m : GamepadManager)
    (buttonThreshold joystickThreshold : ℚ) :
    Option String × GamepadManager :=
  if buttonThreshold < 0 ∨ 1 < buttonThreshold then
    (some "Invalid button threshold. Value must be in the range [0.0, 1.0].", m)
  else if joystickThreshold < 0 ∨ 1 < joystickThreshold then
    (some "Invalid joystick threshold. Value must be in the range [0.0, 1.0].", m)
  else
    (none,
      { m with
        defaultButtonThreshold := buttonThreshold
        defaultJoystickThreshold := joystickThreshold
        gamepads := m.gamepads.map (Option.map fun gp =>
          (gp.setThresholds buttonThreshold joystickThreshold).2) })

/-- The wrapper built for a newly connected raw device in
`pollForConnections_`: the `gamepad.Gamepad` constructor followed by
`setThresholds` with the manager's current defaults.  (When a default
were out of range the JS call would throw; the manager's defaults are
always in range, since they start at 0.5 and 0.1 and `setThresholds`
validates any update.) -/
def connectGamepad (raw : RawPad) (defBT defJT : ℚ) : Gamepad :=
  ((mkGamepad raw).setThresholds defBT defJT).2

/-- A single event dispatch: the event together with the EventTarget it
was dispatched on (the manager, or a device wrapper). -/
inductive DispatchTarget : Type where
  | manager
  | pad (gp : Gamepad)
deriving DecidableEq, Repr

structure Dispatch : Type where
  target : DispatchTarget
  event : GamepadEvent
deriving DecidableEq, Repr

/-- The loop body of `pollForConnections_` at one slot: given the
previously-known raw entry, the new raw entry, and the tracked wrapper at
that slot, the dispatches it performs.  `rawGamepad != knownRawGamepads_[i]`
is JS loose inequality: `null`/`undefined` (both `none`) compare equal,
and two raw objects are the same reference exactly when equal as values.
On a change: if the old entry and the wrapper are both truthy, one
DISCONNECTED event is dispatched on the wrapper and then, the same event
value, on the manager; if the new entry is truthy, a CONNECTED event for
the freshly built wrapper is dispatched on the manager only. -/
def slotEvents (defBT defJT : ℚ) (known newRaw : Option RawPad)
    (gp : Option Gamepad) : List Dispatch :=
  if newRaw = known then []
  else
    (match known, gp with
      | some _, some w =>
        let ev := mkGamepadEvent .DISCONNECTED w none none none none
        [⟨.pad w, ev⟩, ⟨.manager, ev⟩]
      | _, _ => []) ++
    (match newRaw with
      | some raw =>
        [⟨.manager,
          mkGamepadEvent .CONNECTED (connectGamepad raw defBT defJT)
            none none none none⟩]
      | none => [])

/-- The update the `pollForConnections_` loop body makes to the tracked
wrapper at one slot: a new wrapper is stored exactly when the slot
changed and the new entry is non-null (a disconnected slot keeps its
stale wrapper: the source never clears `gamepads_[i]`). -/
def slotUpdate (defBT defJT : ℚ) (known newRaw : Option RawPad)
    (gp : Option Gamepad) : Option Gamepad :=
  if newRaw = known then gp
  else
    match newRaw with
    | some raw => some (connectGamepad raw defBT defJT)
    | none => gp

/-- Embedding of `gamepad.GamepadManager.prototype.pollForConnections_` as a function
of the manager state and the raw device list returned by the browser this
tick: the dispatches performed (the `for` loop walks `i` from
`rawGamepads.length - 1` down to `0`; each slot touches only its own
entry, so the per-slot contributions are independent) and the manager
state after the tick (`knownRawGamepads_` is replaced by the new list). -/
def GamepadManager.pollForConnections (m : GamepadManager)
    (rawList : List (Option RawPad)) : List Dispatch × GamepadManager :=
  let evs := ((List.range rawList.length).reverse.map fun i =>
    slotEvents m.defaultButtonThreshold m.defaultJoystickThreshold
      (m.knownRawGamepads.getD i none) (rawList.getD i none)
      (m.gamepads.getD i none)).flatten
  let len := max rawList.length m.gamepads.length
  let gps := (List.range len).map fun i =>
    if i < rawList.length then
      slotUpdate m.defaultButtonThreshold m.defaultJoystickThreshold
        (m.knownRawGamepads.getD i none) (rawList.getD i none)
        (m.gamepads.getD i none)
    else m.gamepads.getD i none
  (evs, { m with knownRawGamepads := rawList, gamepads := gps })

/-! ### Helper lemmas -/

/-- With a nonzero joystick threshold the quantization pipeline stays
finite and computes ⌊v/t + 1/2⌋ * t, i.e. `v` rounded half-up to the
nearest multiple of `t`. -/
theorem jsQuant_of_ne_zero (v jt : ℚ) (h : jt ≠ 0) :
    jsMulVal (jsRoundVal (jsDiv v jt)) jt = .num ((⌊v / jt + 1 / 2⌋ : ℤ) * jt) := by
  simp [jsDiv, h, jsRoundVal, jsMulVal, jsRound]

/-- With joystick threshold 0 the quantization pipeline always produces
NaN (v/0 is ±Infinity or NaN, and multiplying by 0 gives NaN). -/
theorem jsQuant_zero (v : ℚ) :
    jsMulVal (jsRoundVal (jsDiv v 0)) 0 = .nan := by
  rcases lt_trichotomy v 0 with h | h | h
  · simp [jsDiv, jsRoundVal, jsMulVal, h, not_lt_of_lt h, lt_irrefl]
  · simp [jsDiv, jsRoundVal, jsMulVal, h, lt_irrefl]
  · simp [jsDiv, jsRoundVal, jsMulVal, h, lt_irrefl]

theorem axisContrib_self (jt : ℚ) (h : 0 ≤ jt) (gp : Gamepad)
    (snap : List ℚ) (i : ℕ) (v : ℚ) (hv : snap[i]? = some v) :
    axisContrib jt gp snap i v = [] := by
  simp [axisContrib, hv, not_lt_of_le h]

theorem buttonContrib_self (bt : ℚ) (gp : Gamepad)
    (snap : List ℚ) (i : ℕ) (v : ℚ) (hv : snap[i]? = some v) :
    buttonContrib bt gp snap i v = [] := by
  simp only [buttonContrib, hv]
  have h1 : ¬(bt ≤ v ∧ v < bt) := fun ⟨a, b⟩ => absurd a (not_le_of_lt b)
  have h2 : ¬(v < bt ∧ bt ≤ v) := fun ⟨a, b⟩ => absurd b (not_le_of_lt a)
  simp [h1, h2]

theorem axisScan_self (jt : ℚ) (h : 0 ≤ jt) (gp : Gamepad) (snap : List ℚ) :
    ∀ (i : ℕ) (l : List ℚ), snap.drop i = l → axisScan jt gp snap i l = []
  | _, [], _ => rfl
  | i, v :: rest, hd => by
    have hget : snap[i]? = some v := by
      have := List.getElem?_drop snap i 0
      rw [hd] at this
      simpa using this.symm
    have hrest : snap.drop (i + 1) = rest := by
      have := List.drop_drop 1 i snap
      rw [hd] at this
      simpa [Nat.add_comm] using this.symm
    simp [axisScan, axisContrib_self jt h gp snap i v hget,
      axisScan_self jt h gp snap (i + 1) rest hrest]

theorem buttonScan_self (bt : ℚ) (gp : Gamepad) (snap : List ℚ) :
    ∀ (i : ℕ) (l : List ℚ), snap.drop i = l → buttonScan bt gp snap i l = []
  | _, [], _ => rfl
  | i, v :: rest, hd => by
    have hget : snap[i]? = some v := by
      have := List.getElem?_drop snap i 0
      rw [hd] at this
      simpa using this.symm
    have hrest : snap.drop (i + 1) = rest := by
      have := List.drop_drop 1 i snap
      rw [hd] at this
      simpa [Nat.add_comm] using this.symm
    simp [buttonScan, buttonContrib_self bt gp snap i v hget,
      buttonScan_self bt gp snap (i + 1) rest hrest]

/-- Rewriting the wrapper stored in the emitted events (the `this`
reference) does not change which events fire. -/
def setEventGamepad (g : Gamepad) (e : GamepadEvent) : GamepadEvent :=
  { e with gamepad := g }

theorem axisContrib_gp (jt : ℚ) (gp gp' : Gamepad) (snap : List ℚ)
    (i : ℕ) (v : ℚ) :
    axisContrib jt gp snap i v =
      (axisContrib jt gp' snap i v).map (setEventGamepad gp) := by
  unfold axisContrib
  cases snap[i]? with
  | none => rfl
  | some o =>
    by_cases h : jt < |v - o| <;> simp [h, mkGamepadEvent, setEventGamepad]

theorem buttonContrib_gp (bt : ℚ) (gp gp' : Gamepad) (snap : List ℚ)
    (i : ℕ) (v : ℚ) :
    buttonContrib bt gp snap i v =
      (buttonContrib bt gp' snap i v).map (setEventGamepad gp) := by
  unfold buttonContrib
  cases snap[i]? with
  | none => rfl
  | some o =>
    by_cases h1 : bt ≤ v ∧ o < bt <;> by_cases h2 : v < bt ∧ bt ≤ o <;>
      simp [h1, h2, mkGamepadEvent, setEventGamepad]

theorem axisScan_gp (jt : ℚ) (gp gp' : Gamepad) (snap : List ℚ) :
    ∀ (i : ℕ) (l : List ℚ),
      axisScan jt gp snap i l = (axisScan jt gp' snap i l).map (setEventGamepad gp)
  | _, [] => rfl
  | i, v :: rest => by
    simp [axisScan, axisScan_gp jt gp gp' snap (i + 1) rest,
      axisContrib_gp jt gp gp' snap i v]

theorem buttonScan_gp (bt : ℚ) (gp gp' : Gamepad) (snap : List ℚ) :
    ∀ (i : ℕ) (l : List ℚ),
      buttonScan bt gp snap i l = (buttonScan bt gp' snap i l).map (setEventGamepad gp)
  | _, [] => rfl
  | i, v :: rest => by
    simp [buttonScan, buttonScan_gp bt gp gp' snap (i + 1) rest,
      buttonContrib_gp bt gp gp' snap i v]

theorem axisScan_nil_iff (jt : ℚ) (gp gp' : Gamepad) (snap : List ℚ)
    (i : ℕ) (l : List ℚ) :
    axisScan jt gp snap i l = [] ↔ axisScan jt gp' snap i l = [] := by
  rw [axisScan_gp jt gp gp' snap i l, List.map_eq_nil_iff]

theorem buttonScan_nil_iff (bt : ℚ) (gp gp' : Gamepad) (snap : List ℚ)
    (i : ℕ) (l : List ℚ) :
    buttonScan bt gp snap i l = [] ↔ buttonScan bt gp' snap i l = [] := by
  rw [buttonScan_gp bt gp gp' snap i l, List.map_eq_nil_iff]

theorem axisScan_types (jt : ℚ) (gp : Gamepad) (snap : List ℚ) :
    ∀ (i : ℕ) (l : List ℚ) (e : GamepadEvent), e ∈ axisScan jt gp snap i l →
      e.type = .JOYSTICK_MOVED
  | i, v :: rest, e, he => by
    rw [axisScan, List.mem_append] at he
    rcases he with he | he
    · unfold axisContrib at he
      rcases h : snap[i]? with _ | o <;> rw [h] at he
      · simp at he
      · by_cases hc : jt < |v - o| <;> simp [hc, mkGamepadEvent] at he
        simp [he, mkGamepadEvent]
    · exact axisScan_types jt gp snap (i + 1) rest e he

theorem buttonScan_types (bt : ℚ) (gp : Gamepad) (snap : List ℚ) :
    ∀ (i : ℕ) (l : List ℚ) (e : GamepadEvent), e ∈ buttonScan bt gp snap i l →
      e.type = .BUTTON_DOWN ∨ e.type = .BUTTON_UP
  | i, v :: rest, e, he => by
    rw [buttonScan, List.mem_append] at he
    rcases he with he | he
    · unfold buttonContrib at he
      rcases h : snap[i]? with _ | o <;> rw [h] at he
      · simp at he
      · rw [List.mem_append] at he
        rcases he with he | he
        · by_cases hc : bt ≤ v ∧ o < bt <;> simp [hc, mkGamepadEvent] at he
          left; simp [he, mkGamepadEvent]
        · by_cases hc : v < bt ∧ bt ≤ o <;> simp [hc, mkGamepadEvent] at he
          right; simp [he, mkGamepadEvent]
    · exact buttonScan_types bt gp snap (i + 1) rest e he

/-! ### Claim theorems -/

/-- C1: in every poll() and for every button index `i` whose stored
snapshot value exists, an upward crossing of the button threshold
(new ≥ threshold, old < threshold) makes the loop body at `i` emit
exactly one BUTTON_DOWN event, whose value is 1, and no BUTTON_UP;
a downward crossing (new < threshold, old ≥ threshold) makes it emit
exactly one BUTTON_UP event, whose value is 0, and no BUTTON_DOWN. -/
theorem poll_button_crossing_events (bt : ℚ) (gp : Gamepad) (snap : List ℚ)
    (i : ℕ) (v o : ℚ) (ho : snap[i]? = some o) :
    (bt ≤ v → o < bt →
      buttonContrib bt gp snap i v =
        [mkGamepadEvent .BUTTON_DOWN gp (some i) none (some (.num 1)) none] ∧
      (mkGamepadEvent .BUTTON_DOWN gp (some i) none (some (.num 1)) none).value = .num 1 ∧
      ∀ e ∈ buttonContrib bt gp snap i v, e.type ≠ .BUTTON_UP) ∧
    (v < bt → bt ≤ o →
      buttonContrib bt gp snap i v =
        [mkGamepadEvent .BUTTON_UP gp (some i) none (some (.num 0)) none] ∧
      (mkGamepadEvent .BUTTON_UP gp (some i) none (some (.num 0)) none).value = .num 0 ∧
      ∀ e ∈ buttonContrib bt gp snap i v, e.type ≠ .BUTTON_DOWN) := by
  constructor
  · intro hv hov
    have hdown : bt ≤ v ∧ o < bt := ⟨hv, hov⟩
    have hup : ¬(v < bt ∧ bt ≤ o) := fun ⟨a, _⟩ => absurd hv (not_le_of_lt a)
    have hco : buttonContrib bt gp snap i v =
        [mkGamepadEvent .BUTTON_DOWN gp (some i) none (some (.num 1)) none] := by
      simp [buttonContrib, ho, hdown, hup]
    refine ⟨hco, by simp [mkGamepadEvent, jsTruthy], ?_⟩
    intro e he
    rw [hco] at he
    simp at he
    simp [he, mkGamepadEvent]
  · intro hv hov
    have hdown : ¬(bt ≤ v ∧ o < bt) := fun ⟨a, _⟩ => absurd a (not_le_of_lt hv)
    have hup : v < bt ∧ bt ≤ o := ⟨hv, hov⟩
    have hco : buttonContrib bt gp snap i v =
        [mkGamepadEvent .BUTTON_UP gp (some i) none (some (.num 0)) none] := by
      simp [buttonContrib, ho, hdown, hup]
    refine ⟨hco, by simp [mkGamepadEvent, jsTruthy], ?_⟩
    intro e he
    rw [hco] at he
    simp at he
    simp [he, mkGamepadEvent]

/-- C1 witness: threshold 0.5, button rising 0.3 → 0.6 emits exactly one
BUTTON_DOWN(value 1); falling 0.6 → 0.3 emits exactly one
BUTTON_UP(value 0). -/
theorem poll_button_crossing_events_witness :
    buttonContrib (1 / 2) (mkGamepad ⟨0, [3 / 10], []⟩) [3 / 10] 0 (6 / 10) =
      [mkGamepadEvent .BUTTON_DOWN (mkGamepad ⟨0, [3 / 10], []⟩)
        (some 0) none (some (.num 1)) none] ∧
    buttonContrib (1 / 2) (mkGamepad ⟨0, [6 / 10], []⟩) [6 / 10] 0 (3 / 10) =
      [mkGamepadEvent .BUTTON_UP (mkGamepad ⟨0, [6 / 10], []⟩)
        (some 0) none (some (.num 0)) none] := by
  constructor
  · exact ((poll_button_crossing_events (1 / 2) (mkGamepad ⟨0, [3 / 10], []⟩)
      [3 / 10] 0 (6 / 10) (3 / 10) rfl).1 (by norm_num) (by norm_num)).1
  · exact ((poll_button_crossing_events (1 / 2) (mkGamepad ⟨0, [6 / 10], []⟩)
      [6 / 10] 0 (3 / 10) (6 / 10) rfl).2 (by norm_num) (by norm_num)).1

/-- C2: in every poll() and for every axis index `i` whose stored
snapshot value exists, if the absolute difference between the new value
and the stored value strictly exceeds the (positive) joystick threshold,
the loop body at `i` emits exactly one JOYSTICK_MOVED whose value is the
axis value rounded half-up to the nearest multiple of the threshold,
⌊v/t + 1/2⌋ * t — in particular an integer multiple of the threshold. -/
theorem poll_axis_crossing_quantized (jt : ℚ) (hjt : 0 < jt) (gp : Gamepad)
    (snap : List ℚ) (i : ℕ) (v o : ℚ) (ho : snap[i]? = some o)
    (hmove : jt < |v - o|) :
    axisContrib jt gp snap i v =
      [mkGamepadEvent .JOYSTICK_MOVED gp none (some i)
        (some (.num ((⌊v / jt + 1 / 2⌋ : ℤ) * jt))) none] ∧
    ∃ k : ℤ, ((⌊v / jt + 1 / 2⌋ : ℤ) : ℚ) * jt = (k : ℚ) * jt := by
  refine ⟨?_, ⟨⌊v / jt + 1 / 2⌋, rfl⟩⟩
  simp only [axisContrib, ho, if_pos hmove,
    jsQuant_of_ne_zero v jt hjt.ne']

/-- C2 witness: axis moving 0.0 → 0.25 with threshold 0.1 emits one
JOYSTICK_MOVED with value 0.3 = 3 × 0.1 (round-half-up quantization). -/
theorem poll_axis_crossing_quantized_witness :
    axisContrib (1 / 10) (mkGamepad ⟨0, [], [0]⟩) [0] 0 (1 / 4) =
      [mkGamepadEvent .JOYSTICK_MOVED (mkGamepad ⟨0, [], [0]⟩) none (some 0)
        (some (.num (3 / 10))) none] ∧
    (3 : ℚ) / 10 = (3 : ℤ) * (1 / 10 : ℚ) := by
  have h := (poll_axis_crossing_quantized (1 / 10) (by norm_num)
    (mkGamepad ⟨0, [], [0]⟩) [0] 0 (1 / 4) 0 rfl (by norm_num [abs_of_nonneg])).1
  have hfl : (⌊(1 : ℚ) / 4 / (1 / 10) + 1 / 2⌋ : ℤ) = 3 := by norm_num
  rw [h, hfl]
  norm_num

/-- C4 (code bug): a BUTTON_DOWN fired for button index 0 carries the
sentinel -1 in its button field, and a JOYSTICK_MOVED fired for axis
index 0 carries -1 in its axis field, because the GamepadEvent
constructor defaults its optional arguments with `||` and the index 0 is
falsy — contradicting the constructor's own documentation ("Button that
was pressed, or -1 if not a button event"). Input: threshold 0.5, button
0 rising 0 → 1 (resp. threshold 0.1, axis 0 moving 0 → 1). -/
theorem index_zero_sentinel_bug :
    (buttonContrib (1 / 2) (mkGamepad ⟨0, [0], [0]⟩) [0] 0 1).map
        (fun e => (e.type, e.button)) = [(.BUTTON_DOWN, -1)] ∧
    (axisContrib (1 / 10) (mkGamepad ⟨0, [0], [0]⟩) [0] 0 1).map
        (fun e => (e.type, e.axis)) = [(.JOYSTICK_MOVED, -1)] := by
  constructor
  · norm_num [buttonContrib, mkGamepadEvent]
  · simp only [axisContrib]
    norm_num [mkGamepadEvent, abs_of_nonneg]

/-- C5: whenever either threshold argument lies outside [0, 1],
setThresholds — on the manager and on a device wrapper alike — throws
synchronously and performs no mutation: the full prior manager state
(defaults and every wrapper) and the full prior wrapper state are
unchanged. -/
theorem setThresholds_invalid_rejected (bt jt : ℚ) (m : GamepadManager)
    (gp : Gamepad) (h : bt < 0 ∨ 1 < bt ∨ jt < 0 ∨ 1 < jt) :
    (m.setThresholds bt jt).1.isSome = true ∧
    (m.setThresholds bt jt).2 = m ∧
    (gp.setThresholds bt jt).1.isSome = true ∧
    (gp.setThresholds bt jt).2 = gp := by
  unfold GamepadManager.setThresholds Gamepad.setThresholds
  split_ifs with h1 h2 <;> try simp
  exact absurd h (by push_neg at h1 h2 ⊢; tauto)

/-- C5 witness: button threshold 1.5 (out of range) is rejected and the
fresh manager and a fresh wrapper are left unchanged. -/
theorem setThresholds_invalid_rejected_witness :
    ((mkGamepadManager.setThresholds (3 / 2) (1 / 10)).1.isSome = true ∧
     (mkGamepadManager.setThresholds (3 / 2) (1 / 10)).2 = mkGamepadManager ∧
     ((mkGamepad ⟨0, [], []⟩).setThresholds (3 / 2) (1 / 10)).1.isSome = true ∧
     ((mkGamepad ⟨0, [], []⟩).setThresholds (3 / 2) (1 / 10)).2 = mkGamepad ⟨0, [], []⟩) :=
  setThresholds_invalid_rejected (3 / 2) (1 / 10) mkGamepadManager
    (mkGamepad ⟨0, [], []⟩) (by right; left; norm_num)

/-- C6: for thresholds inside [0, 1], the manager's setThresholds
succeeds (no throw), updates both default thresholds (used for
not-yet-connected devices), and immediately overwrites the thresholds of
every currently tracked wrapper, leaving each wrapper's snapshots (the
state poll() compares against) untouched. -/
theorem setThresholds_valid_propagates (bt jt : ℚ) (m : GamepadManager)
    (hb0 : 0 ≤ bt) (hb1 : bt ≤ 1) (hj0 : 0 ≤ jt) (hj1 : jt ≤ 1) :
    (m.setThresholds bt jt).1 = none ∧
    (m.setThresholds bt jt).2.defaultButtonThreshold = bt ∧
    (m.setThresholds bt jt).2.defaultJoystickThreshold = jt ∧
    ∀ (i : ℕ) (w : Gamepad), m.gamepads[i]? = some (some w) →
      (m.setThresholds bt jt).2.gamepads[i]? =
        some (some { w with buttonThreshold := bt, joystickThreshold := jt }) := by
  have hbc : ¬(bt < 0 ∨ 1 < bt) := by push_neg; exact ⟨hb0, hb1⟩
  have hjc : ¬(jt < 0 ∨ 1 < jt) := by push_neg; exact ⟨hj0, hj1⟩
  unfold GamepadManager.setThresholds
  rw [if_neg hbc, if_neg hjc]
  refine ⟨rfl, rfl, rfl, ?_⟩
  intro i w hw
  simp only [List.getElem?_map, hw, Option.map_some']
  simp [Gamepad.setThresholds, hbc, hjc]

/-- C6 witness: thresholds (0.8, 0.2) on a manager tracking one wrapper:
the call succeeds, the defaults become 0.8 and 0.2, and the tracked
wrapper's thresholds are overwritten. -/
theorem setThresholds_valid_propagates_witness :
    ((⟨[], [some (mkGamepad ⟨0, [], []⟩)], 1 / 2, 1 / 10⟩ :
        GamepadManager).setThresholds (4 / 5) (1 / 5)).1 = none ∧
    ((⟨[], [some (mkGamepad ⟨0, [], []⟩)], 1 / 2, 1 / 10⟩ :
        GamepadManager).setThresholds (4 / 5) (1 / 5)).2.gamepads[0]? =
      some (some { mkGamepad ⟨0, [], []⟩ with
        buttonThreshold := 4 / 5, joystickThreshold := 1 / 5 }) := by
  have h := setThresholds_valid_propagates (4 / 5) (1 / 5)
    ⟨[], [some (mkGamepad ⟨0, [], []⟩)], 1 / 2, 1 / 10⟩
    (by norm_num) (by norm_num) (by norm_num) (by norm_num)
  exact ⟨h.1, h.2.2.2 0 (mkGamepad ⟨0, [], []⟩) rfl⟩

/-- C10 counterexample: with joystick threshold 0 (accepted by
setThresholds) and axis 0 changing 0 → 0.5, the quantization does divide
by zero and computes NaN, but the JOYSTICK_MOVED event's carried value is
the well-defined number 0, not NaN: the GamepadEvent constructor's
`opt_value || 0` treats NaN as falsy and replaces it with 0. -/
theorem zero_threshold_nan_coerced_counterexample :
    (mkGamepadManager.setThresholds (1 / 2) 0).1 = none ∧
    jsMulVal (jsRoundVal (jsDiv (1 / 2) 0)) 0 = .nan ∧
    (axisContrib 0 (⟨0, 1 / 2, 0, [0], [0]⟩ : Gamepad) [0] 0 (1 / 2)).map
        (fun e => (e.type, e.value)) = [(.JOYSTICK_MOVED, .num 0)] := by
  refine ⟨?_, jsQuant_zero (1 / 2), ?_⟩
  · norm_num [GamepadManager.setThresholds, mkGamepadManager]
  · simp only [axisContrib]
    norm_num [mkGamepadEvent, jsQuant_zero, jsTruthy, abs_of_nonneg]

/-- C10 as amended: setThresholds accepts a joystick threshold of exactly
0; with threshold 0 any change of an axis value (with a stored snapshot
entry) fires a JOYSTICK_MOVED event, and the quantization
`Math.round(v / 0) * 0` evaluates to NaN, but the value the event carries
is 0, because the GamepadEvent constructor's `|| 0` default replaces the
falsy NaN. -/
theorem zero_threshold_fires_coerced_zero (bt : ℚ) (hb0 : 0 ≤ bt)
    (hb1 : bt ≤ 1) (m : GamepadManager) (gp : Gamepad) (snap : List ℚ)
    (i : ℕ) (v o : ℚ) (ho : snap[i]? = some o) (hne : v ≠ o) :
    (m.setThresholds bt 0).1 = none ∧
    jsMulVal (jsRoundVal (jsDiv v 0)) 0 = .nan ∧
    (axisContrib 0 gp snap i v).map (fun e => (e.type, e.value)) =
      [(.JOYSTICK_MOVED, .num 0)] := by
  have hbc : ¬(bt < 0 ∨ 1 < bt) := by push_neg; exact ⟨hb0, hb1⟩
  refine ⟨?_, jsQuant_zero v, ?_⟩
  · norm_num [GamepadManager.setThresholds, hbc]
  · have habs : (0 : ℚ) < |v - o| := abs_pos.mpr (sub_ne_zero.mpr hne)
    simp [axisContrib, ho, habs, jsQuant_zero, mkGamepadEvent, jsTruthy]

/-- C10 amended witness: threshold pair (0.5, 0) on a fresh manager, axis
0 moving 0 → 0.5 on a wrapper with joystick threshold 0. -/
theorem zero_threshold_fires_coerced_zero_witness :
    (mkGamepadManager.setThresholds (1 / 2) 0).1 = none ∧
    jsMulVal (jsRoundVal (jsDiv (3 / 4) 0)) 0 = .nan ∧
    (axisContrib 0 (⟨1, 1 / 2, 0, [], [0]⟩ : Gamepad) [0] 0 (3 / 4)).map
        (fun e => (e.type, e.value)) = [(.JOYSTICK_MOVED, .num 0)] :=
  zero_threshold_fires_coerced_zero (1 / 2) (by norm_num) (by norm_num)
    mkGamepadManager (⟨1, 1 / 2, 0, [], [0]⟩ : Gamepad) [0] 0 (3 / 4) 0
    rfl (by norm_num)

/-- C3 counterexample: a manager knowing a raw device at slot 0 with a
tracked wrapper, polled with an *empty* new raw-device list, walks no
slot at all and emits no event — the claim requires a DISCONNECTED event
for slot 0, which is present in the previously-known list, non-null, and
absent from the new list. -/
theorem pollForConnections_shorter_list_counterexample :
    ((⟨[some ⟨5, [0], [0]⟩], [some (mkGamepad ⟨5, [0], [0]⟩)], 1 / 2, 1 / 10⟩ :
        GamepadManager).pollForConnections []).1 = [] ∧
    (⟨[some ⟨5, [0], [0]⟩], [some (mkGamepad ⟨5, [0], [0]⟩)], 1 / 2, 1 / 10⟩ :
        GamepadManager).knownRawGamepads.getD 0 none = some ⟨5, [0], [0]⟩ ∧
    ((⟨[some ⟨5, [0], [0]⟩], [some (mkGamepad ⟨5, [0], [0]⟩)], 1 / 2, 1 / 10⟩ :
        GamepadManager).gamepads.getD 0 none).isSome = true ∧
    ([] : List (Option RawPad)).getD 0 none = none := by
  refine ⟨?_, rfl, rfl, rfl⟩
  simp [GamepadManager.pollForConnections]

/-- C3 as amended: the connection-detection walk covers exactly the slots
of the *new* raw-device list (from its highest index down to 0), not the
union with the previously-known list; within that range, every slot whose
previously-known raw device is non-null and whose new entry is absent or
a different identity, and which has a tracked wrapper, gets its
DISCONNECTED event dispatched on the wrapper and on the manager.  A slot
beyond the new list's length is never visited, so a previously-known
device there produces no DISCONNECTED event (the counterexample). -/
theorem pollForConnections_disconnect_in_range (m : GamepadManager)
    (rawList : List (Option RawPad)) (i : ℕ) (A : RawPad) (w : Gamepad)
    (hi : i < rawList.length)
    (hk : m.knownRawGamepads.getD i none = some A)
    (hn : rawList.getD i none ≠ some A)
    (hg : m.gamepads.getD i none = some w) :
    (⟨.pad w, mkGamepadEvent .DISCONNECTED w none none none none⟩ : Dispatch) ∈
      (m.pollForConnections rawList).1 ∧
    (⟨.manager, mkGamepadEvent .DISCONNECTED w none none none none⟩ : Dispatch) ∈
      (m.pollForConnections rawList).1 := by
  have hmem : i ∈ (List.range rawList.length).reverse := by simp [hi]
  have hslot : ∀ d : Dispatch,
      d ∈ slotEvents m.defaultButtonThreshold m.defaultJoystickThreshold
        (m.knownRawGamepads.getD i none) (rawList.getD i none)
        (m.gamepads.getD i none) →
      d ∈ (m.pollForConnections rawList).1 := by
    intro d hd
    simp only [GamepadManager.pollForConnections]
    exact List.mem_flatten.mpr ⟨_, List.mem_map_of_mem _ hmem, hd⟩
  constructor <;>
  · apply hslot
    rw [hk, hg]
    unfold slotEvents
    rw [if_neg hn]
    simp

/-- C3 amended witness: slot 0 changing from device 5 to device 6 (list
length 1) emits the DISCONNECTED pair for the tracked wrapper. -/
theorem pollForConnections_disconnect_in_range_witness :
    ((⟨.pad (mkGamepad ⟨5, [0], [0]⟩),
        mkGamepadEvent .DISCONNECTED (mkGamepad ⟨5, [0], [0]⟩)
          none none none none⟩ : Dispatch) ∈
      ((⟨[some ⟨5, [0], [0]⟩], [some (mkGamepad ⟨5, [0], [0]⟩)], 1 / 2, 1 / 10⟩ :
          GamepadManager).pollForConnections [some ⟨6, [0], [0]⟩]).1) ∧
    ((⟨.manager,
        mkGamepadEvent .DISCONNECTED (mkGamepad ⟨5, [0], [0]⟩)
          none none none none⟩ : Dispatch) ∈
      ((⟨[some ⟨5, [0], [0]⟩], [some (mkGamepad ⟨5, [0], [0]⟩)], 1 / 2, 1 / 10⟩ :
          GamepadManager).pollForConnections [some ⟨6, [0], [0]⟩]).1) :=
  pollForConnections_disconnect_in_range
    (⟨[some ⟨5, [0], [0]⟩], [some (mkGamepad ⟨5, [0], [0]⟩)], 1 / 2, 1 / 10⟩ :
      GamepadManager)
    [some ⟨6, [0], [0]⟩] 0 ⟨5, [0], [0]⟩ (mkGamepad ⟨5, [0], [0]⟩)
    (by norm_num) rfl (by simp) rfl

/-- C9: a slot whose raw identity changes from non-null A directly to a
different non-null B, with a tracked wrapper, produces within the same
tick exactly one DISCONNECTED event — dispatched first on A's wrapper and
then, the same event value, on the manager — followed by exactly one
CONNECTED event, dispatched on the manager only, for B's newly
constructed wrapper carrying the manager's current default thresholds. -/
theorem slot_swap_disconnect_then_connect (defBT defJT : ℚ)
    (hb0 : 0 ≤ defBT) (hb1 : defBT ≤ 1) (hj0 : 0 ≤ defJT) (hj1 : defJT ≤ 1)
    (A B : RawPad) (hAB : A ≠ B) (w : Gamepad) :
    slotEvents defBT defJT (some A) (some B) (some w) =
      [⟨.pad w, mkGamepadEvent .DISCONNECTED w none none none none⟩,
       ⟨.manager, mkGamepadEvent .DISCONNECTED w none none none none⟩,
       ⟨.manager, mkGamepadEvent .CONNECTED
         (⟨B.id, defBT, defJT, B.buttons, B.axes⟩ : Gamepad)
         none none none none⟩] := by
  have hbc : ¬(defBT < 0 ∨ 1 < defBT) := by push_neg; exact ⟨hb0, hb1⟩
  have hjc : ¬(defJT < 0 ∨ 1 < defJT) := by push_neg; exact ⟨hj0, hj1⟩
  have hne : (some B : Option RawPad) ≠ some A := by
    simpa using hAB.symm
  have hconn : connectGamepad B defBT defJT =
      (⟨B.id, defBT, defJT, B.buttons, B.axes⟩ : Gamepad) := by
    simp [connectGamepad, Gamepad.setThresholds, hbc, hjc, mkGamepad]
  unfold slotEvents
  rw [if_neg hne]
  simp [hconn]

/-- C9 witness: slot swapping device 1 for device 2 under the default
thresholds. -/
theorem slot_swap_disconnect_then_connect_witness :
    slotEvents (1 / 2) (1 / 10) (some ⟨1, [], []⟩) (some ⟨2, [1], [0]⟩)
        (some (mkGamepad ⟨1, [], []⟩)) =
      [⟨.pad (mkGamepad ⟨1, [], []⟩),
        mkGamepadEvent .DISCONNECTED (mkGamepad ⟨1, [], []⟩) none none none none⟩,
       ⟨.manager,
        mkGamepadEvent .DISCONNECTED (mkGamepad ⟨1, [], []⟩) none none none none⟩,
       ⟨.manager, mkGamepadEvent .CONNECTED
         (⟨2, 1 / 2, 1 / 10, [1], [0]⟩ : Gamepad) none none none none⟩] :=
  slot_swap_disconnect_then_connect (1 / 2) (1 / 10) (by norm_num)
    (by norm_num) (by norm_num) (by norm_num) ⟨1, [], []⟩ ⟨2, [1], [0]⟩
    (by simp) (mkGamepad ⟨1, [], []⟩)

theorem axisScan_filter_joy (jt : ℚ) (gp : Gamepad) (snap : List ℚ)
    (i : ℕ) (l : List ℚ) :
    (axisScan jt gp snap i l).filter
        (fun e => decide (e.type = .JOYSTICK_MOVED)) =
      axisScan jt gp snap i l :=
  List.filter_eq_self.mpr fun e he => by
    simp [axisScan_types jt gp snap i l e he]

theorem buttonScan_filter_joy (bt : ℚ) (gp : Gamepad) (snap : List ℚ)
    (i : ℕ) (l : List ℚ) :
    (buttonScan bt gp snap i l).filter
        (fun e => decide (e.type = .JOYSTICK_MOVED)) = [] :=
  List.filter_eq_nil_iff.mpr fun e he => by
    rcases buttonScan_types bt gp snap i l e he with h | h <;> simp [h]

theorem axisScan_filter_btn (jt : ℚ) (gp : Gamepad) (snap : List ℚ)
    (i : ℕ) (l : List ℚ) :
    (axisScan jt gp snap i l).filter
        (fun e => decide (e.type = .BUTTON_DOWN) || decide (e.type = .BUTTON_UP)) = [] :=
  List.filter_eq_nil_iff.mpr fun e he => by
    simp [axisScan_types jt gp snap i l e he]

theorem buttonScan_filter_btn (bt : ℚ) (gp : Gamepad) (snap : List ℚ)
    (i : ℕ) (l : List ℚ) :
    (buttonScan bt gp snap i l).filter
        (fun e => decide (e.type = .BUTTON_DOWN) || decide (e.type = .BUTTON_UP)) =
      buttonScan bt gp snap i l :=
  List.filter_eq_self.mpr fun e he => by
    rcases buttonScan_types bt gp snap i l e he with h | h <;> simp [h]

/-- What one poll() does to the wrapper state: thresholds are untouched,
and each snapshot either becomes the new raw values, or stays unchanged
because no event of its category fired (stated for every choice of the
`this` reference stored in the events, which does not affect firing). -/
theorem poll_state (gp : Gamepad) (raw : RawData) :
    (gp.poll raw).2.buttonThreshold = gp.buttonThreshold ∧
    (gp.poll raw).2.joystickThreshold = gp.joystickThreshold ∧
    ((gp.poll raw).2.lastAxisSnapshot = raw.axes ∨
      ((gp.poll raw).2.lastAxisSnapshot = gp.lastAxisSnapshot ∧
        ∀ g : Gamepad,
          axisScan gp.joystickThreshold g gp.lastAxisSnapshot 0 raw.axes = [])) ∧
    ((gp.poll raw).2.lastButtonSnapshot = raw.buttons ∨
      ((gp.poll raw).2.lastButtonSnapshot = gp.lastButtonSnapshot ∧
        ∀ g : Gamepad,
          buttonScan gp.buttonThreshold g gp.lastButtonSnapshot 0 raw.buttons = [])) := by
  simp only [Gamepad.poll]
  by_cases hA : axisScan gp.joystickThreshold gp gp.lastAxisSnapshot 0 raw.axes = []
  · rw [if_pos hA]
    by_cases hB : buttonScan gp.buttonThreshold gp gp.lastButtonSnapshot 0 raw.buttons = []
    · rw [if_pos hB]
      exact ⟨rfl, rfl,
        Or.inr ⟨rfl, fun g => (axisScan_nil_iff _ g gp _ _ _).mpr hA⟩,
        Or.inr ⟨rfl, fun g => (buttonScan_nil_iff _ g gp _ _ _).mpr hB⟩⟩
    · rw [if_neg hB]
      exact ⟨rfl, rfl,
        Or.inr ⟨rfl, fun g => (axisScan_nil_iff _ g gp _ _ _).mpr hA⟩,
        Or.inl rfl⟩
  · rw [if_neg hA]
    by_cases hB : buttonScan gp.buttonThreshold
        { gp with lastAxisSnapshot := raw.axes } gp.lastButtonSnapshot 0 raw.buttons = []
    · rw [if_pos hB]
      exact ⟨rfl, rfl, Or.inl rfl,
        Or.inr ⟨rfl, fun g =>
          (buttonScan_nil_iff _ g { gp with lastAxisSnapshot := raw.axes } _ _ _).mpr hB⟩⟩
    · rw [if_neg hB]
      exact ⟨rfl, rfl, Or.inl rfl, Or.inl rfl⟩

/-- C7: polling twice with the underlying raw button and axis values
unchanged between the calls emits no events on the second call (the
joystick threshold is nonnegative on every reachable wrapper: it starts
at 0.1 and setThresholds rejects negative values). -/
theorem poll_idempotent (gp : Gamepad) (raw : RawData)
    (h : 0 ≤ gp.joystickThreshold) :
    (((gp.poll raw).2).poll raw).1 = [] := by
  obtain ⟨hbt, hjt, hax, hbn⟩ := poll_state gp raw
  have hA2 : axisScan (gp.poll raw).2.joystickThreshold (gp.poll raw).2
      (gp.poll raw).2.lastAxisSnapshot 0 raw.axes = [] := by
    rw [hjt]
    rcases hax with hax | ⟨hax, hall⟩
    · rw [hax]
      exact axisScan_self gp.joystickThreshold h (gp.poll raw).2 raw.axes 0 raw.axes rfl
    · rw [hax]
      exact hall (gp.poll raw).2
  have hB2 : buttonScan (gp.poll raw).2.buttonThreshold (gp.poll raw).2
      (gp.poll raw).2.lastButtonSnapshot 0 raw.buttons = [] := by
    rw [hbt]
    rcases hbn with hbn | ⟨hbn, hall⟩
    · rw [hbn]
      exact buttonScan_self gp.buttonThreshold (gp.poll raw).2 raw.buttons 0 raw.buttons rfl
    · rw [hbn]
      exact hall (gp.poll raw).2
  conv_lhs => rw [Gamepad.poll]
  rw [if_pos hA2]
  simp [hA2, hB2]

/-- C7 witness: a wrapper with thresholds (0.5, 0.1) polled twice with
the same raw values (axis 0.25, button 1) fires nothing the second
time. -/
theorem poll_idempotent_witness :
    ((((⟨0, 1 / 2, 1 / 10, [0], [0]⟩ : Gamepad).poll ⟨[1 / 4], [1]⟩).2).poll
      ⟨[1 / 4], [1]⟩).1 = [] :=
  poll_idempotent (⟨0, 1 / 2, 1 / 10, [0], [0]⟩ : Gamepad) ⟨[1 / 4], [1]⟩
    (by norm_num)

/-- C8: in every poll(), the stored axis snapshot is replaced in its
entirety by the new axis values when at least one JOYSTICK_MOVED fired in
that call, and is left completely unchanged when none fired; likewise the
stored button snapshot is replaced in its entirety when at least one
BUTTON_DOWN or BUTTON_UP fired, and is left unchanged otherwise. -/
theorem poll_snapshot_all_or_nothing (gp : Gamepad) (raw : RawData) :
    (gp.poll raw).2.lastAxisSnapshot =
      (if (gp.poll raw).1.filter (fun e => decide (e.type = .JOYSTICK_MOVED)) = []
       then gp.lastAxisSnapshot else raw.axes) ∧
    (gp.poll raw).2.lastButtonSnapshot =
      (if (gp.poll raw).1.filter
            (fun e => decide (e.type = .BUTTON_DOWN) || decide (e.type = .BUTTON_UP)) = []
       then gp.lastButtonSnapshot else raw.buttons) := by
  simp only [Gamepad.poll]
  by_cases hA : axisScan gp.joystickThreshold gp gp.lastAxisSnapshot 0 raw.axes = []
  · by_cases hB : buttonScan gp.buttonThreshold gp gp.lastButtonSnapshot 0 raw.buttons = []
    all_goals
      simp [hA, hB, List.filter_append, axisScan_filter_joy,
        buttonScan_filter_joy, axisScan_filter_btn, buttonScan_filter_btn,
        -List.filter_eq_nil_iff]
  · by_cases hB : buttonScan gp.buttonThreshold
        { gp with lastAxisSnapshot := raw.axes } gp.lastButtonSnapshot 0 raw.buttons = []
    all_goals
      simp [hA, hB, List.filter_append, axisScan_filter_joy,
        buttonScan_filter_joy, axisScan_filter_btn, buttonScan_filter_btn,
        -List.filter_eq_nil_iff]

end gamepad
